import Mathlib

/-!
Shallow embedding of the midisynthd control plane (config store, audio
driver selection, MIDI event routing) together with proofs about it.

Conventions used throughout:
* C `int` values become `Int`; byte values read from the wire become `Nat`.
* C `float` fields become `Rat`; the code only ever compares these fields
  against constant bounds, so an exact rational carrier is faithful to the
  branch structure (the decimal literals `0.5f`, `1.2f`, `0.9f` are written
  as the exact rationals they denote in the source text).
* External effects (the filesystem `access()` check, `fopen` outcomes,
  libc `strtof`, FluidSynth call results, backend probe results) are
  passed in explicitly as function-valued parameters, so every definition
  is a pure function of the program inputs plus that environment.
* Fixed-size C arrays paired with a count field become `List`s.
* config.c's out-of-bounds `strncpy` stores (255 bytes into the 128-byte
  string arrays of `midisynthd_config_t`, a consequence of config.c
  redefining config.h's `CONFIG_MAX_STRING_LEN` from 128 to 256) are
  modelled at field granularity: the zero-padding case (stored string
  shorter than the field) is reproduced exactly from the struct layout;
  the read-back of a longer string's tail bytes as the neighbouring
  fields is supplied by an environment oracle, since char bytes
  reinterpreted as IEEE-754 `float` patterns (possibly NaN) have no
  faithful `Rat` counterpart; the `group` store's write past the end of
  the struct touches no configuration field and is outside the model.
-/

namespace Midisynthd

/-! ## Basic enumerations (config.h) -/

/-- `log_level_t` from config.h. -/
inductive LogLevel where
  | error
  | warn
  | info
  | debug
deriving DecidableEq, Repr

/-- `audio_driver_t` from config.h (`AUDIO_DRIVER_COUNT` is not a value). -/
inductive AudioDriver where
  | auto
  | jack
  | pipewire
  | pulseaudio
  | alsa
deriving DecidableEq, Repr

/-- `midi_driver_t` from config.h. -/
inductive MidiDriver where
  | alsaSeq
  | alsaRaw
  | jackMidi
deriving DecidableEq, Repr

/-- `soundfont_config_t` from config.h. -/
structure SoundfontConfig where
  path : String
  enabled : Bool
  bank_offset : Int
  gain_offset : Rat
deriving DecidableEq, Repr

/-- `midisynthd_config_t` from config.h. The `soundfonts` array together
with its `soundfont_count` field is modelled as a single list. -/
structure MidisynthdConfig where
  log_level : LogLevel
  audio_driver : AudioDriver
  midi_driver : MidiDriver
  sample_rate : Int
  buffer_size : Int
  audio_periods : Int
  gain : Rat
  client_name : String
  midi_autoconnect : Bool
  polyphony : Int
  chorus_enabled : Bool
  chorus_level : Rat
  reverb_enabled : Bool
  reverb_level : Rat
  soundfonts : List SoundfontConfig
  realtime_priority : Bool
  user : String
  group : String
deriving DecidableEq, Repr

/-! ## Compiled-in defaults (the `CONFIG_DEFAULT_*` macros as defined in
config.c; config.c redefines some of the macros from config.h, and inside
config.c those redefinitions are the operative values). -/

def CONFIG_DEFAULT_SAMPLE_RATE : Int := 48000

def CONFIG_DEFAULT_BUFFER_SIZE : Int := 512

def CONFIG_DEFAULT_AUDIO_PERIODS : Int := 2

def CONFIG_DEFAULT_GAIN : Rat := ⟨1, 2, by omega, Nat.coprime_one_left 2⟩

def CONFIG_DEFAULT_POLYPHONY : Int := 256

def CONFIG_DEFAULT_CHORUS_LEVEL : Rat := ⟨6, 5, by omega, by norm_num⟩

def CONFIG_DEFAULT_REVERB_LEVEL : Rat := ⟨9, 10, by omega, by norm_num⟩

def CONFIG_DEFAULT_CLIENT_NAME : String := "MidiSynth Daemon"

/-- The `default_soundfonts` candidate list in `config_init_defaults`
(config.c; the first entry is `CONFIG_DEFAULT_SOUNDFONT_PATH` as config.c
defines it, which happens to repeat the second entry). -/
def config_default_soundfont_candidates : List String :=
  ["/usr/share/soundfonts/FluidR3_GM_GS.sf2",
   "/usr/share/soundfonts/FluidR3_GM_GS.sf2",
   "/usr/share/soundfonts/GeneralUser_GS.sf2",
   "/usr/share/sounds/sf2/FluidR3_GM_GS.sf2",
   "/usr/share/sounds/sf2/GeneralUser_GS.sf2"]

/-- `config_init_defaults` (config.c). `readable` models `access(path, R_OK) == 0`.
The loop `break`s after the first readable candidate, so at most one
soundfont entry is produced; all other fields of the appended entry stay at
their `memset` zero values. (Its `strncpy` of the default client name
overflows the 128-byte field like every other string store in config.c,
but here the overflow only re-zeroes freshly `memset` bytes and every
clobbered field is assigned afterwards, so a pure record literal is
observation-equivalent.) -/
def config_init_defaults (readable : String → Bool) : MidisynthdConfig :=
  { log_level := LogLevel.info
    audio_driver := AudioDriver.auto
    midi_driver := MidiDriver.alsaSeq
    sample_rate := CONFIG_DEFAULT_SAMPLE_RATE
    buffer_size := CONFIG_DEFAULT_BUFFER_SIZE
    audio_periods := CONFIG_DEFAULT_AUDIO_PERIODS
    gain := CONFIG_DEFAULT_GAIN
    client_name := CONFIG_DEFAULT_CLIENT_NAME
    midi_autoconnect := true
    polyphony := CONFIG_DEFAULT_POLYPHONY
    chorus_enabled := true
    chorus_level := CONFIG_DEFAULT_CHORUS_LEVEL
    reverb_enabled := true
    reverb_level := CONFIG_DEFAULT_REVERB_LEVEL
    soundfonts :=
      match config_default_soundfont_candidates.find? readable with
      | some p => [{ path := p, enabled := true, bank_offset := 0, gain_offset := 0 }]
      | none => []
    realtime_priority := true
    user := ""
    group := "" }

/-! ## Line parsing helpers (config.c) -/

/-- The character class accepted by C `isspace` in the POSIX locale. -/
def c_isspace (ch : Char) : Bool :=
  ch = ' ' ∨ ch = '\t' ∨ ch = '\n' ∨ ch = '\x0b' ∨ ch = '\x0c' ∨ ch = '\r'

/-- `trim_whitespace` (config.c): strip leading and trailing whitespace. -/
def trim_whitespace (s : String) : String :=
  String.mk (((s.data.dropWhile c_isspace).reverse.dropWhile c_isspace).reverse)

/-- ASCII lower-casing as done by C `tolower` on the inputs that occur here. -/
def ascii_tolower (ch : Char) : Char :=
  if 'A' ≤ ch ∧ ch ≤ 'Z' then Char.ofNat (ch.toNat + 32) else ch

/-- `strcasecmp(a, b) == 0`: case-insensitive string equality. -/
def strcaseeq (a b : String) : Bool :=
  a.data.map ascii_tolower == b.data.map ascii_tolower

/-- Accumulate a run of leading decimal digits: returns the value of the
run (on top of the accumulator) and the number of digit characters read. -/
def digits_run (acc : Nat) : List Char → Nat × Nat
  | [] => (acc, 0)
  | ch :: rest =>
    if '0' ≤ ch ∧ ch ≤ '9' then
      let r := digits_run (acc * 10 + (ch.toNat - 48)) rest
      (r.1, r.2 + 1)
    else (acc, 0)

/-- libc `strtol(str, &endptr, 10)`, returning the parsed value and the
offset of `endptr` from the start of the string (0 when no digits are
found, since `endptr` is then reset to `nptr`). Overflow clamping to
`LONG_MAX`/`LONG_MIN` is not modelled; every bound the program passes is
far inside the long range, so a clamped value is rejected by the same
range test that rejects the unclamped one. -/
def strtol10 (s : String) : Int × Nat :=
  let ws := (s.data.takeWhile c_isspace).length
  match s.data.dropWhile c_isspace with
  | '-' :: more =>
    let r := digits_run 0 more
    if r.2 = 0 then (0, 0) else (-(r.1 : Int), ws + 1 + r.2)
  | '+' :: more =>
    let r := digits_run 0 more
    if r.2 = 0 then (0, 0) else ((r.1 : Int), ws + 1 + r.2)
  | more =>
    let r := digits_run 0 more
    if r.2 = 0 then (0, 0) else ((r.1 : Int), ws + r.2)

/-- `parse_int` (config.c): full-string `strtol` with bounds check,
falling back to the per-key default. `consumed ≠ s.length` is the
`*endptr != '\0'` test. -/
def parse_int (s : String) (min_val max_val default_val : Int) : Int :=
  let r := strtol10 s
  if r.2 ≠ s.length ∨ r.1 < min_val ∨ r.1 > max_val then default_val else r.1

/-- A model of libc `strtof`: the parsed value and the offset of `endptr`
from the start of the string. Passed in as part of the environment; the
program only ever composes it with a full-consumption and range check. -/
def Strtof : Type := String → Rat × Nat

/-- `parse_float` (config.c): full-string `strtof` with bounds check,
falling back to the per-key default. -/
def parse_float (strtof : Strtof) (s : String) (min_val max_val default_val : Rat) : Rat :=
  let r := strtof s
  if r.2 ≠ s.length ∨ r.1 < min_val ∨ r.1 > max_val then default_val else r.1

/-- `parse_bool` (config.c). -/
def parse_bool (s : String) : Bool :=
  strcaseeq s "true" ∨ strcaseeq s "yes" ∨ strcaseeq s "on" ∨ strcaseeq s "1"

/-- `parse_log_level` (config.c); unrecognized strings give `info`. -/
def parse_log_level (s : String) : LogLevel :=
  if strcaseeq s "debug" then LogLevel.debug
  else if strcaseeq s "info" then LogLevel.info
  else if strcaseeq s "warn" ∨ strcaseeq s "warning" then LogLevel.warn
  else if strcaseeq s "error" then LogLevel.error
  else LogLevel.info

/-- `parse_audio_driver` (config.c); unrecognized strings give `auto`. -/
def parse_audio_driver (s : String) : AudioDriver :=
  if strcaseeq s "auto" then AudioDriver.auto
  else if strcaseeq s "jack" then AudioDriver.jack
  else if strcaseeq s "pipewire" then AudioDriver.pipewire
  else if strcaseeq s "pulseaudio" ∨ strcaseeq s "pulse" then AudioDriver.pulseaudio
  else if strcaseeq s "alsa" then AudioDriver.alsa
  else AudioDriver.auto

/-- What the fields laid out after the 128-byte `client_name` array of
`midisynthd_config_t` read back as once a 255-byte `strncpy` has been
stored into it. config.h sizes the string arrays with its own
`CONFIG_MAX_STRING_LEN` of 128, while config.c redefines that macro to
256, so every `strncpy(dst, src, CONFIG_MAX_STRING_LEN - 1)` in config.c
writes exactly 255 bytes. On the declared layout (`client_name` at
offset 28) the 127 overflow bytes cover `midi_autoconnect` (offset 156),
`polyphony` (160), `chorus_enabled` (164), `chorus_level` (168),
`reverb_enabled` (172), `reverb_level` (176) and bytes 0..102 of
`soundfonts[0].path` (180..282); the closing `dst[255] = 0` lands on
path byte 103. -/
structure NameOverflowImage where
  midi_autoconnect : Bool
  polyphony : Int
  chorus_enabled : Bool
  chorus_level : Rat
  reverb_enabled : Bool
  reverb_level : Rat
  sf0_path : String
deriving DecidableEq, Repr

/-- When the stored string is shorter than the 128-byte field, every
overflow byte is a `strncpy` zero pad: the trailing fields read back as
zero/false and `soundfonts[0].path` as the empty string. This case is
exact, no oracle needed. -/
def zero_name_overflow : NameOverflowImage :=
  { midi_autoconnect := false
    polyphony := 0
    chorus_enabled := false
    chorus_level := 0
    reverb_enabled := false
    reverb_level := 0
    sf0_path := "" }

/-- For a stored string of 128 or more characters the overflow bytes are
the string's tail characters reinterpreted in place as the neighbouring
fields (char bytes as a C `bool`, a little-endian `int`, IEEE-754
`float` bit patterns). The float read-backs have no faithful `Rat`
counterpart (a garbage pattern may be a NaN, whose comparisons all
fail), so this read-back is supplied by the environment. -/
def NameOverflow : Type := String → NameOverflowImage

/-- Replace the path of the first soundfont entry: the in-list image of
the overflow write into the `soundfonts[0].path` bytes. When the list is
empty no entry is in view (the physical slot 0 bytes are still written,
but a later append overwrites them before any read). -/
def clobber_head_path (p : String) : List SoundfontConfig → List SoundfontConfig
  | [] => []
  | sf :: rest => { sf with path := p } :: rest

/-- Apply a client-name store's overflow image to the fields that follow
`client_name` in the struct (everything before it — in particular
`gain`, at offset 24 — is untouched). -/
def apply_name_overflow (img : NameOverflowImage) (config : MidisynthdConfig) :
    MidisynthdConfig :=
  { config with
    midi_autoconnect := img.midi_autoconnect
    polyphony := img.polyphony
    chorus_enabled := img.chorus_enabled
    chorus_level := img.chorus_level
    reverb_enabled := img.reverb_enabled
    reverb_level := img.reverb_level
    soundfonts := clobber_head_path img.sf0_path config.soundfonts }

/-- `parse_config_line` (config.c). Comment/empty lines and lines without
`=` leave the configuration untouched; the key is rejected when it would
overflow the 256-byte key buffer; the copied value is truncated to 255
characters (`CONFIG_MAX_STRING_LEN - 1` with config.c's value of the
macro) before trimming. The three string stores into 128-byte arrays
carry their buffer overflows: the `client_name` store clobbers the
following fields per `NameOverflowImage` (the field itself reads back as
the whole stored value, the run of characters ending only at the first
zero byte); the `user` store overwrites all 128 bytes of `group`, which
reads back as the stored value's characters from index 128 on (empty
when the value is shorter); the `group` store writes its 127 overflow
bytes past the end of the struct — memory outside every configuration
field, hence outside this model. -/
def parse_config_line (strtof : Strtof) (name_overflow : NameOverflow)
    (config : MidisynthdConfig) (line : String) :
    MidisynthdConfig :=
  match line.data with
  | [] => config
  | c0 :: _ =>
    if c0 = '#' ∨ c0 = ';' then config
    else
      match line.data.findIdx? (fun ch => ch = '=') with
      | none => config
      | some key_len =>
        if 256 ≤ key_len then config
        else
          let tk := trim_whitespace (String.mk (line.data.take key_len))
          let tv := trim_whitespace (String.mk ((line.data.drop (key_len + 1)).take 255))
          if strcaseeq tk "log_level" then
            { config with log_level := parse_log_level tv }
          else if strcaseeq tk "audio_driver" then
            { config with audio_driver := parse_audio_driver tv }
          else if strcaseeq tk "sample_rate" then
            { config with sample_rate := parse_int tv 8000 192000 CONFIG_DEFAULT_SAMPLE_RATE }
          else if strcaseeq tk "buffer_size" then
            { config with buffer_size := parse_int tv 64 8192 CONFIG_DEFAULT_BUFFER_SIZE }
          else if strcaseeq tk "audio_periods" then
            { config with audio_periods := parse_int tv 2 8 CONFIG_DEFAULT_AUDIO_PERIODS }
          else if strcaseeq tk "gain" then
            { config with gain := parse_float strtof tv 0 2 CONFIG_DEFAULT_GAIN }
          else if strcaseeq tk "client_name" then
            let v := String.mk (tv.data.take 255)
            apply_name_overflow
              (if v.length < 128 then zero_name_overflow else name_overflow v)
              { config with client_name := v }
          else if strcaseeq tk "midi_autoconnect" then
            { config with midi_autoconnect := parse_bool tv }
          else if strcaseeq tk "polyphony" then
            { config with polyphony := parse_int tv 16 4096 CONFIG_DEFAULT_POLYPHONY }
          else if strcaseeq tk "chorus_enabled" then
            { config with chorus_enabled := parse_bool tv }
          else if strcaseeq tk "chorus_level" then
            { config with chorus_level := parse_float strtof tv 0 10 CONFIG_DEFAULT_CHORUS_LEVEL }
          else if strcaseeq tk "reverb_enabled" then
            { config with reverb_enabled := parse_bool tv }
          else if strcaseeq tk "reverb_level" then
            { config with reverb_level := parse_float strtof tv 0 10 CONFIG_DEFAULT_REVERB_LEVEL }
          else if strcaseeq tk "soundfont" ∨ strcaseeq tk "soundfont_path" then
            if config.soundfonts.length < 8 then
              { config with soundfonts := config.soundfonts ++
                  [{ path := String.mk (tv.data.take 511), enabled := true,
                     bank_offset := 0, gain_offset := 0 }] }
            else config
          else if strcaseeq tk "realtime_priority" then
            { config with realtime_priority := parse_bool tv }
          else if strcaseeq tk "user" then
            let v := String.mk (tv.data.take 255)
            { config with user := v, group := String.mk (v.data.drop 128) }
          else if strcaseeq tk "group" then
            { config with group := String.mk (tv.data.take 255) }
          else config

/-! ## File loading (config.c) -/

/-- Outcome of `fopen(filename, "r")` as the program can observe it:
missing file (`errno == ENOENT`), any other open failure, or the sequence
of lines of the opened file (each line as delivered by `fgets`, newline
stripped). -/
inductive FileResult where
  | enoent : FileResult
  | openFail : FileResult
  | opened : List String → FileResult

/-- `config_load_file` (config.c). Both open-failure cases return `-1`;
they differ only in whether a warning is logged. An opened file is
parsed line by line and the function returns `0`. -/
def config_load_file (strtof : Strtof) (name_overflow : NameOverflow)
    (config : MidisynthdConfig) (f : FileResult) :
    MidisynthdConfig × Int :=
  match f with
  | FileResult.enoent => (config, -1)
  | FileResult.openFail => (config, -1)
  | FileResult.opened lines =>
    (lines.foldl (parse_config_line strtof name_overflow) config, 0)

/-- The host environment seen by the configuration loader: the system
config file, the home directory lookup (`getenv("HOME")` with the passwd
fallback; `none` means both failed so no user path is built), the user
config file, and the `access(_, R_OK)` predicate. -/
structure ConfigEnv where
  system_file : FileResult
  home : Option String
  user_file : FileResult
  readable : String → Bool

/-- `config_load` (config.c): system layer then user layer, counting how
many files actually loaded; `-1` when neither did. -/
def config_load (strtof : Strtof) (name_overflow : NameOverflow) (env : ConfigEnv)
    (config : MidisynthdConfig) :
    MidisynthdConfig × Int :=
  let r1 := config_load_file strtof name_overflow config env.system_file
  let r2 :=
    match env.home with
    | none => (r1.1, (-1 : Int))
    | some _ => config_load_file strtof name_overflow r1.1 env.user_file
  let loaded_files := (if r1.2 = 0 then (1 : Nat) else 0) + (if r2.2 = 0 then 1 else 0)
  (r2.1, if loaded_files = 0 then -1 else 0)

/-! ## Validation (config.c) -/

/-- The soundfont pass of `config_validate` (config.c): an entry that is
enabled, has a non-empty path, and is not readable is flagged disabled
(one fix); an enabled, non-empty, readable entry counts as valid; all
other entries pass through untouched. Returns the rewritten list, the
number of fixes, and the number of valid soundfonts. -/
def validate_soundfonts (readable : String → Bool) :
    List SoundfontConfig → List SoundfontConfig × Int × Nat
  | [] => ([], 0, 0)
  | sf :: rest =>
    let r := validate_soundfonts readable rest
    if sf.enabled ∧ 0 < sf.path.length then
      if readable sf.path then (sf :: r.1, r.2.1, r.2.2 + 1)
      else ({ sf with enabled := false } :: r.1, r.2.1 + 1, r.2.2)
    else (sf :: r.1, r.2.1, r.2.2)

/-- `config_validate` (config.c), in the order the C executes: the seven
bounded numeric fields are re-clamped to their compiled-in defaults when
out of range (one fix each); then an empty client name is reset to the
default (one fix) — and that reset's `strncpy` writes the 16-character
default plus 239 zero-pad bytes as 255 bytes into the 128-byte field,
which zeroes `midi_autoconnect`, the just-clamped `polyphony`, the
chorus and reverb flags and levels, and empties `soundfonts[0].path`
(an exact `zero_name_overflow` image, the source being shorter than the
field); then the soundfont loop runs over the list as it now stands.
The result is `none` (the C `-1`) exactly when no valid soundfont
remains, and otherwise the total fix count with the corrected
configuration. (In C a failing validate has also already mutated the
struct in place, but every caller discards the struct on failure, so
modelling failure as `none` is observation-equivalent.) -/
def config_validate (readable : String → Bool) (config : MidisynthdConfig) :
    Option (Int × MidisynthdConfig) :=
  let clamped : MidisynthdConfig :=
    { config with
      sample_rate :=
        if config.sample_rate < 8000 ∨ config.sample_rate > 192000 then
          CONFIG_DEFAULT_SAMPLE_RATE
        else config.sample_rate
      buffer_size :=
        if config.buffer_size < 64 ∨ config.buffer_size > 8192 then
          CONFIG_DEFAULT_BUFFER_SIZE
        else config.buffer_size
      audio_periods :=
        if config.audio_periods < 2 ∨ config.audio_periods > 8 then
          CONFIG_DEFAULT_AUDIO_PERIODS
        else config.audio_periods
      gain :=
        if config.gain < 0 ∨ config.gain > 2 then CONFIG_DEFAULT_GAIN else config.gain
      polyphony :=
        if config.polyphony < 16 ∨ config.polyphony > 4096 then
          CONFIG_DEFAULT_POLYPHONY
        else config.polyphony
      chorus_level :=
        if config.chorus_level < 0 ∨ config.chorus_level > 10 then
          CONFIG_DEFAULT_CHORUS_LEVEL
        else config.chorus_level
      reverb_level :=
        if config.reverb_level < 0 ∨ config.reverb_level > 10 then
          CONFIG_DEFAULT_REVERB_LEVEL
        else config.reverb_level }
  let named : MidisynthdConfig :=
    if config.client_name.length = 0 then
      apply_name_overflow zero_name_overflow
        { clamped with client_name := CONFIG_DEFAULT_CLIENT_NAME }
    else clamped
  let vsf := validate_soundfonts readable named.soundfonts
  if vsf.2.2 = 0 then none
  else
    some
      ((if config.sample_rate < 8000 ∨ config.sample_rate > 192000 then 1 else 0) +
       (if config.buffer_size < 64 ∨ config.buffer_size > 8192 then 1 else 0) +
       (if config.audio_periods < 2 ∨ config.audio_periods > 8 then 1 else 0) +
       (if config.gain < 0 ∨ config.gain > 2 then 1 else 0) +
       (if config.polyphony < 16 ∨ config.polyphony > 4096 then 1 else 0) +
       (if config.chorus_level < 0 ∨ config.chorus_level > 10 then 1 else 0) +
       (if config.reverb_level < 0 ∨ config.reverb_level > 10 then 1 else 0) +
       (if config.client_name.length = 0 then 1 else 0) +
       vsf.2.1,
       { named with soundfonts := vsf.1 })

/-! ## Runtime reload (main.c) -/

/-- `reload_configuration` (main.c), as a function from the live
configuration to the new live configuration plus the C return code. A
scratch configuration is built from defaults, loaded and validated; any
failure leaves the live configuration untouched; on success exactly the
six hot-reloadable fields are copied from the validated scratch copy into
the live configuration. (The syslog mask update and the
`synth_update_settings` push read only the fields copied here.) -/
def reload_configuration (strtof : Strtof) (name_overflow : NameOverflow)
    (env : ConfigEnv) (live : MidisynthdConfig) :
    Int × MidisynthdConfig :=
  let new0 := config_init_defaults env.readable
  let load_result := config_load strtof name_overflow env new0
  if load_result.2 < 0 then (-1, live)
  else
    match config_validate env.readable load_result.1 with
    | none => (-1, live)
    | some r =>
      (0,
       { live with
         log_level := r.2.log_level
         gain := r.2.gain
         chorus_enabled := r.2.chorus_enabled
         chorus_level := r.2.chorus_level
         reverb_enabled := r.2.reverb_enabled
         reverb_level := r.2.reverb_level })

/-! ## Audio backend detection and activation (audio.c) -/

/-- One probe cycle of the backend prober (`detect_jack`,
`detect_pipewire`, `detect_pulseaudio` in audio.c): which audio servers
answered their availability probe. The raw ALSA fallback needs no probe. -/
structure BackendSnapshot where
  jack_available : Bool
  pipewire_available : Bool
  pulseaudio_available : Bool

/-- `detect_audio_driver` (audio.c): an explicit (non-auto) request is
returned verbatim; `auto` probes JACK, then PipeWire, then PulseAudio,
and falls back to ALSA. -/
def detect_audio_driver (requested_driver : AudioDriver) (snap : BackendSnapshot) :
    AudioDriver :=
  if requested_driver ≠ AudioDriver.auto then requested_driver
  else if snap.jack_available then AudioDriver.jack
  else if snap.pipewire_available then AudioDriver.pipewire
  else if snap.pulseaudio_available then AudioDriver.pulseaudio
  else AudioDriver.alsa

/-- Modelled from the spec (§4.3): whether a driver's probe reports it
available in a snapshot; the raw fallback is outside the probed set. -/
def spec_probe (snap : BackendSnapshot) : AudioDriver → Bool
  | AudioDriver.jack => snap.jack_available
  | AudioDriver.pipewire => snap.pipewire_available
  | AudioDriver.pulseaudio => snap.pulseaudio_available
  | _ => false

/-- Modelled from the spec (§4.3): the fixed probe priority order. -/
def spec_priority_order : List AudioDriver :=
  [AudioDriver.jack, AudioDriver.pipewire, AudioDriver.pulseaudio]

/-- Modelled from the spec (§4.3): under `auto`, select the first
available driver in priority order, falling back to raw ALSA when none
of the probed servers is available. -/
def spec_auto_selection (snap : BackendSnapshot) : AudioDriver :=
  ((spec_priority_order.filter (spec_probe snap)).head?).getD AudioDriver.alsa

/-- The external outcomes `audio_init` (audio.c) depends on: the probe
snapshot, whether `configure_audio_settings` succeeds for a driver, and
whether `new_fluid_audio_driver` comes up for a driver. -/
structure AudioEnv where
  snapshot : BackendSnapshot
  configure_ok : AudioDriver → Bool
  activate_ok : AudioDriver → Bool

/-- `audio_init` (audio.c): detect a driver, configure, and activate it;
on activation failure of a non-ALSA driver, reconfigure for ALSA and
retry activation once; any remaining failure is fatal (`none`, the C
`NULL`). The second component records each driver for which a
`new_fluid_audio_driver` activation was attempted, in order. -/
def audio_init (env : AudioEnv) (config : MidisynthdConfig) :
    Option AudioDriver × List AudioDriver :=
  let detected := detect_audio_driver config.audio_driver env.snapshot
  if env.configure_ok detected = false then (none, [])
  else if env.activate_ok detected = true then (some detected, [detected])
  else if detected ≠ AudioDriver.alsa then
    if env.configure_ok AudioDriver.alsa = true then
      if env.activate_ok AudioDriver.alsa = true then
        (some AudioDriver.alsa, [detected, AudioDriver.alsa])
      else (none, [detected, AudioDriver.alsa])
    else (none, [detected])
  else (none, [detected])

/-- `initialize_modules` (main.c), with the synthesizer and MIDI driver
construction outcomes abstracted as booleans: a failed `audio_init` (or
any later failed stage, or the unimplemented raw MIDI driver) aborts
startup with `-1`. -/
def initialize_modules (env : AudioEnv) (config : MidisynthdConfig)
    (synth_ok midi_ok : Bool) : Int :=
  if (audio_init env config).1.isNone then -1
  else if ¬ synth_ok then -1
  else
    match config.midi_driver with
    | MidiDriver.alsaRaw => -1
    | _ => if ¬ midi_ok then -1 else 0

/-! ## The synthesis call surface (synth.c) -/

/-- One call into the FluidSynth call surface, with the arguments the
code passes (`fluid_synth_noteoff` takes no velocity). -/
inductive FluidCall where
  | noteon : Int → Int → Int → FluidCall
  | noteoff : Int → Int → FluidCall
  | cc : Int → Int → Int → FluidCall
  | program_change : Int → Int → FluidCall
  | pitch_bend : Int → Int → FluidCall
  | channel_pressure : Int → Int → FluidCall
  | key_pressure : Int → Int → Int → FluidCall
  | all_sounds_off : Int → FluidCall
  | all_notes_off : Int → FluidCall
deriving DecidableEq, Repr

/-- The guard `synth && synth->initialized && synth->synth` collapsed to
one flag: whether the dispatcher holds a live, initialized engine. -/
structure SynthState where
  initialized : Bool

/-- Whether a given FluidSynth call returns `FLUID_OK` — external to the
control plane, passed in as environment. -/
structure SynthEnv where
  fluid_ok : FluidCall → Bool

/-- `synth_note_on` (synth.c). Returns the C result and the list of calls
made into the synthesis capability (empty when the event is dropped). -/
def synth_note_on (s : SynthState) (env : SynthEnv) (channel key velocity : Int) :
    Int × List FluidCall :=
  if ¬ s.initialized then (-1, [])
  else if channel < 0 ∨ 16 ≤ channel ∨ key < 0 ∨ key > 127 ∨ velocity < 0 ∨ velocity > 127 then
    (-1, [])
  else
    let call := FluidCall.noteon channel key velocity
    ((if env.fluid_ok call then 0 else -1), [call])

/-- `synth_note_off` (synth.c). Only channel and key are validated; the
velocity parameter is accepted but never used (FluidSynth's note-off
takes none). -/
def synth_note_off (s : SynthState) (env : SynthEnv) (channel key _velocity : Int) :
    Int × List FluidCall :=
  if ¬ s.initialized then (-1, [])
  else if channel < 0 ∨ 16 ≤ channel ∨ key < 0 ∨ key > 127 then (-1, [])
  else
    let call := FluidCall.noteoff channel key
    ((if env.fluid_ok call then 0 else -1), [call])

/-- `synth_program_change` (synth.c). -/
def synth_program_change (s : SynthState) (env : SynthEnv) (channel program : Int) :
    Int × List FluidCall :=
  if ¬ s.initialized then (-1, [])
  else if channel < 0 ∨ 16 ≤ channel ∨ program < 0 ∨ program > 127 then (-1, [])
  else
    let call := FluidCall.program_change channel program
    ((if env.fluid_ok call then 0 else -1), [call])

/-- `synth_control_change` (synth.c). -/
def synth_control_change (s : SynthState) (env : SynthEnv) (channel control value : Int) :
    Int × List FluidCall :=
  if ¬ s.initialized then (-1, [])
  else if channel < 0 ∨ 16 ≤ channel ∨ control < 0 ∨ control > 127 ∨ value < 0 ∨ value > 127 then
    (-1, [])
  else
    let call := FluidCall.cc channel control value
    ((if env.fluid_ok call then 0 else -1), [call])

/-- `synth_pitch_bend` (synth.c): the value is the unsigned wire
convention, validated against [0, 16383]. -/
def synth_pitch_bend (s : SynthState) (env : SynthEnv) (channel value : Int) :
    Int × List FluidCall :=
  if ¬ s.initialized then (-1, [])
  else if channel < 0 ∨ 16 ≤ channel ∨ value < 0 ∨ value > 16383 then (-1, [])
  else
    let call := FluidCall.pitch_bend channel value
    ((if env.fluid_ok call then 0 else -1), [call])

/-- `synth_channel_pressure` (synth.c). -/
def synth_channel_pressure (s : SynthState) (env : SynthEnv) (channel pressure : Int) :
    Int × List FluidCall :=
  if ¬ s.initialized then (-1, [])
  else if channel < 0 ∨ 16 ≤ channel ∨ pressure < 0 ∨ pressure > 127 then (-1, [])
  else
    let call := FluidCall.channel_pressure channel pressure
    ((if env.fluid_ok call then 0 else -1), [call])

/-- `synth_key_pressure` (synth.c). -/
def synth_key_pressure (s : SynthState) (env : SynthEnv) (channel key pressure : Int) :
    Int × List FluidCall :=
  if ¬ s.initialized then (-1, [])
  else if channel < 0 ∨ 16 ≤ channel ∨ key < 0 ∨ key > 127 ∨ pressure < 0 ∨ pressure > 127 then
    (-1, [])
  else
    let call := FluidCall.key_pressure channel key pressure
    ((if env.fluid_ok call then 0 else -1), [call])

/-- The per-channel body of the reset loop in `synth_reset_controllers`
(synth.c), in the order the code issues the calls; channel 9 (drums) is
skipped by the program-change step only. -/
def reset_channel_calls (i : Int) : List FluidCall :=
  [FluidCall.all_sounds_off i, FluidCall.all_notes_off i,
   FluidCall.cc i 7 100, FluidCall.cc i 10 64, FluidCall.cc i 11 127,
   FluidCall.cc i 64 0, FluidCall.cc i 123 0, FluidCall.cc i 121 0,
   FluidCall.pitch_bend i 8192] ++
  (if i ≠ 9 then [FluidCall.program_change i 0] else [])

/-- `synth_reset_controllers` (synth.c): the calls issued over all 16
channels (individual FluidSynth results are ignored by the code). -/
def synth_reset_controllers (s : SynthState) : Int × List FluidCall :=
  if ¬ s.initialized then (-1, [])
  else (0, ((List.range 16).map (fun i : Nat => reset_channel_calls (i : Int))).flatten)

/-! ## Event routing (synth.c, midi_jack.c) -/

/-- The ALSA sequencer event shapes `synth_handle_midi_event` reads
(`snd_seq_event_t` restricted to the consumed fields). -/
inductive SeqEvent where
  | noteon : Int → Int → Int → SeqEvent
  | noteoff : Int → Int → Int → SeqEvent
  | keypress : Int → Int → Int → SeqEvent
  | controller : Int → Int → Int → SeqEvent
  | pgmchange : Int → Int → SeqEvent
  | chanpress : Int → Int → SeqEvent
  | pitchbend : Int → Int → SeqEvent
  | other : SeqEvent
deriving DecidableEq, Repr

/-- `synth_handle_midi_event` (synth.c): the router boundary. A note-off
is dispatched with velocity 0; a pitch-bend value is recombined with
`+ 8192` back to the unsigned wire convention; unknown event types are
ignored with result 0. -/
def synth_handle_midi_event (s : SynthState) (env : SynthEnv) (ev : SeqEvent) :
    Int × List FluidCall :=
  match ev with
  | SeqEvent.noteon ch note vel => synth_note_on s env ch note vel
  | SeqEvent.noteoff ch note _ => synth_note_off s env ch note 0
  | SeqEvent.keypress ch note vel => synth_key_pressure s env ch note vel
  | SeqEvent.controller ch param value => synth_control_change s env ch param value
  | SeqEvent.pgmchange ch value => synth_program_change s env ch value
  | SeqEvent.chanpress ch value => synth_channel_pressure s env ch value
  | SeqEvent.pitchbend ch value => synth_pitch_bend s env ch (value + 8192)
  | SeqEvent.other => (0, [])

/-- `handle_event` (midi_jack.c): normalize one raw JACK MIDI message
(its byte buffer) into a sequencer event and hand it to
`synth_handle_midi_event`, whose result the C code discards; the value
of the model is the list of synthesis calls that resulted. Pitch-bend
data bytes combine as `(msb << 7) | lsb` and are re-centered by
subtracting 8192. Messages that are empty, truncated, or of an
unhandled status kind produce nothing. -/
def handle_event (s : SynthState) (env : SynthEnv) (bytes : List Nat) : List FluidCall :=
  match bytes with
  | [] => []
  | d0 :: rest =>
    let ch : Int := ((d0 &&& 0x0F : Nat) : Int)
    let kind := d0 &&& 0xF0
    if kind = 0x90 then
      match rest with
      | d1 :: d2 :: _ =>
        (synth_handle_midi_event s env (SeqEvent.noteon ch (d1 : Int) (d2 : Int))).2
      | _ => []
    else if kind = 0x80 then
      match rest with
      | d1 :: d2 :: _ =>
        (synth_handle_midi_event s env (SeqEvent.noteoff ch (d1 : Int) (d2 : Int))).2
      | _ => []
    else if kind = 0xB0 then
      match rest with
      | d1 :: d2 :: _ =>
        (synth_handle_midi_event s env (SeqEvent.controller ch (d1 : Int) (d2 : Int))).2
      | _ => []
    else if kind = 0xC0 then
      match rest with
      | d1 :: _ =>
        (synth_handle_midi_event s env (SeqEvent.pgmchange ch (d1 : Int))).2
      | _ => []
    else if kind = 0xE0 then
      match rest with
      | d1 :: d2 :: _ =>
        (synth_handle_midi_event s env
          (SeqEvent.pitchbend ch ((((d2 <<< 7) ||| d1 : Nat) : Int) - 8192))).2
      | _ => []
    else []

/-! ## Arithmetic helpers -/

/-- Bitwise-or of a left-shifted value with a small value is addition:
the shifted bits and the low bits are disjoint. -/
theorem mul_pow_lor_eq_add :
    ∀ (k : Nat), ∀ m l, l < 2 ^ k → (m * 2 ^ k) ||| l = m * 2 ^ k + l := by
  intro k
  induction k with
  | zero =>
    intro m l h
    have hl : l = 0 := by omega
    subst hl
    simp
  | succ n ih =>
    intro m l h
    have hd : Nat.bit (Nat.bodd l) (Nat.div2 l) = l := Nat.bit_decomp l
    have hm : m * 2 ^ (n + 1) = Nat.bit false (m * 2 ^ n) := by
      simp [Nat.bit_val]
      ring
    have hdl : Nat.div2 l < 2 ^ n := by
      rw [Nat.div2_val]
      have h2 : 2 ^ (n + 1) = 2 * 2 ^ n := by ring
      omega
    rw [← hd, hm, Nat.lor_bit, ih m (Nat.div2 l) hdl]
    simp [Nat.bit_val, Nat.div2_val]
    ring

/-- Specialization to the 7-bit MIDI data-byte layout `(msb << 7) | lsb`. -/
theorem shift7_lor_eq (m l : Nat) (h : l < 128) : (m <<< 7) ||| l = 128 * m + l := by
  have h2 := mul_pow_lor_eq_add 7 m l (by norm_num; omega)
  rw [Nat.shiftLeft_eq]
  norm_num at h2 ⊢
  omega

/-- `status & 0x0F` recovers the channel of a pitch-bend status byte. -/
theorem status_lo_nibble (ch : Nat) (h : ch < 16) : (224 + ch) &&& 15 = ch := by
  interval_cases ch <;> rfl

/-- `status & 0xF0` recovers the message kind of a pitch-bend status byte. -/
theorem status_hi_nibble (ch : Nat) (h : ch < 16) : (224 + ch) &&& 240 = 224 := by
  interval_cases ch <;> rfl

/-- C1: For every wire value `v` in [0, 16383], normalizing a pitch-bend
message by combining its data bytes as `(msb << 7) | lsb` and subtracting
8192 (as `handle_event` in midi_jack.c does), then adding 8192 back at the
router boundary (as `synth_handle_midi_event` does before calling
`synth_pitch_bend`), yields exactly `v` at the synthesis call surface:
the round trip is the identity on all 16384 values. -/
theorem pitch_bend_round_trip_identity
    (s : SynthState) (env : SynthEnv) (v ch : Nat)
    (hinit : s.initialized = true) (hv : v < 16384) (hch : ch < 16) :
    handle_event s env [224 + ch, v % 128, v / 128] =
      [FluidCall.pitch_bend (ch : Int) (v : Int)] := by
  have h1 := status_lo_nibble ch hch
  have h2 := status_hi_nibble ch hch
  have h3 : ((v / 128) <<< 7) ||| (v % 128) = v := by
    rw [shift7_lor_eq _ _ (Nat.mod_lt v (by norm_num))]
    omega
  have h4 : ((((v / 128) <<< 7) ||| (v % 128) : Nat) : Int) = (v : Int) := by
    exact_mod_cast congrArg (Nat.cast : Nat → Int) h3
  simp only [handle_event, h1, h2]
  norm_num
  simp only [h4, synth_handle_midi_event]
  have h5 : ((v : Int) - 8192) + 8192 = (v : Int) := by ring
  rw [h5]
  have h6 : ¬((ch : Int) < 0 ∨ 16 ≤ (ch : Int) ∨ (v : Int) < 0 ∨ (v : Int) > 16383) := by
    omega
  simp [synth_pitch_bend, hinit, h6]
  rw [if_neg (by omega)]

/-- Witness for C1 at wire value 1234 on channel 0. -/
theorem pitch_bend_round_trip_identity_witness :
    handle_event ⟨true⟩ ⟨fun _ => true⟩ [224, 1234 % 128, 1234 / 128] =
      [FluidCall.pitch_bend 0 1234] := by
  have h := pitch_bend_round_trip_identity ⟨true⟩ ⟨fun _ => true⟩ 1234 0 rfl
    (by norm_num) (by norm_num)
  simpa using h

/-- C5: driver auto-detection probes JACK, then PipeWire, then PulseAudio
and takes the first available (`spec_auto_selection` is the spec-side
first-available selection over that priority order, with raw ALSA as the
fallback); a snapshot with nothing available resolves to ALSA; an
explicit (non-auto) backend request is returned verbatim, ignoring the
snapshot. -/
theorem detect_audio_driver_spec :
    (∀ requested snap, requested ≠ AudioDriver.auto →
      detect_audio_driver requested snap = requested) ∧
    (∀ snap, detect_audio_driver AudioDriver.auto snap = spec_auto_selection snap) ∧
    detect_audio_driver AudioDriver.auto ⟨false, false, false⟩ = AudioDriver.alsa := by
  refine ⟨?_, ?_, by rfl⟩
  · intro requested snap h
    simp [detect_audio_driver, h]
  · intro snap
    rcases snap with ⟨j, p, a⟩
    cases j <;> cases p <;> cases a <;> rfl

/-- Witness for C5: an explicit JACK request is returned verbatim even
when the snapshot says only ALSA would work. -/
theorem detect_audio_driver_spec_witness :
    detect_audio_driver AudioDriver.jack ⟨false, false, false⟩ = AudioDriver.jack :=
  detect_audio_driver_spec.1 AudioDriver.jack ⟨false, false, false⟩ (by decide)

/-- C7: `synth_reset_controllers` on an initialized synthesizer succeeds
and issues, for every one of the 16 channels, all-sound-off,
all-notes-off, volume (CC 7) = 100, pan (CC 10) = 64, expression
(CC 11) = 127, sustain (CC 64) released (0), pitch bend centered at
8192, and a program change to program 0 on every channel except channel
index 9, which receives no program change at all. -/
theorem synth_reset_controllers_values
    (s : SynthState) (hinit : s.initialized = true) :
    (synth_reset_controllers s).1 = 0 ∧
    (∀ i : Nat, i < 16 →
      FluidCall.all_sounds_off (i : Int) ∈ (synth_reset_controllers s).2 ∧
      FluidCall.all_notes_off (i : Int) ∈ (synth_reset_controllers s).2 ∧
      FluidCall.cc (i : Int) 7 100 ∈ (synth_reset_controllers s).2 ∧
      FluidCall.cc (i : Int) 10 64 ∈ (synth_reset_controllers s).2 ∧
      FluidCall.cc (i : Int) 11 127 ∈ (synth_reset_controllers s).2 ∧
      FluidCall.cc (i : Int) 64 0 ∈ (synth_reset_controllers s).2 ∧
      FluidCall.pitch_bend (i : Int) 8192 ∈ (synth_reset_controllers s).2 ∧
      (i ≠ 9 → FluidCall.program_change (i : Int) 0 ∈ (synth_reset_controllers s).2)) ∧
    (∀ p : Int, FluidCall.program_change 9 p ∉ (synth_reset_controllers s).2) := by
  have hs : synth_reset_controllers s =
      (0, ((List.range 16).map (fun i : Nat => reset_channel_calls (i : Int))).flatten) := by
    simp [synth_reset_controllers, hinit]
  rw [hs]
  refine ⟨rfl, ?_, ?_⟩
  · intro i hi
    interval_cases i <;> exact (by decide)
  · intro p hp
    rw [List.mem_flatten] at hp
    obtain ⟨l, hl, hmem⟩ := hp
    rw [List.mem_map] at hl
    obtain ⟨i, hi, rfl⟩ := hl
    rw [List.mem_range] at hi
    interval_cases i <;> simp [reset_channel_calls] at hmem

/-- Witness for C7 on a live synthesizer state: reset succeeds, channel 0
gets its volume reset, and channel 9 keeps its program. -/
theorem synth_reset_controllers_values_witness :
    (synth_reset_controllers ⟨true⟩).1 = 0 ∧
    FluidCall.cc 0 7 100 ∈ (synth_reset_controllers ⟨true⟩).2 ∧
    FluidCall.program_change 9 0 ∉ (synth_reset_controllers ⟨true⟩).2 := by
  have h := synth_reset_controllers_values ⟨true⟩ rfl
  refine ⟨h.1, ?_, h.2.2 0⟩
  have h2 := (h.2.1 0 (by norm_num)).2.2.1
  simpa using h2

/-- C8 counterexample: `synth_note_off` does not validate its velocity
argument. A note-off with velocity 200 (outside [0,127]) on a valid
channel and key is not dropped with a local error: it returns 0 and makes
a call into the synthesis capability. -/
theorem note_off_velocity_not_validated :
    synth_note_off ⟨true⟩ ⟨fun _ => true⟩ 0 60 200 = (0, [FluidCall.noteoff 0 60]) ∧
    ¬ synth_note_off ⟨true⟩ ⟨fun _ => true⟩ 0 60 200 = (-1, []) := by
  constructor
  · rfl
  · decide

/-- C8 (amended): every dispatch operation rejects an out-of-range
channel or out-of-range validated data values with a local `-1` error and
no call into the synthesis capability — where the validated values are:
note-on key and velocity; note-off key only (note-off velocity is
accepted but never validated or forwarded); control-change controller
and value; program; pitch-bend wire value against [0,16383]; channel
pressure; key-pressure key and pressure. -/
theorem dispatch_range_validation
    (s : SynthState) (env : SynthEnv) :
    (∀ channel key velocity : Int,
      (channel < 0 ∨ 16 ≤ channel ∨ key < 0 ∨ key > 127 ∨ velocity < 0 ∨ velocity > 127) →
      synth_note_on s env channel key velocity = (-1, [])) ∧
    (∀ channel key velocity : Int,
      (channel < 0 ∨ 16 ≤ channel ∨ key < 0 ∨ key > 127) →
      synth_note_off s env channel key velocity = (-1, [])) ∧
    (∀ channel control value : Int,
      (channel < 0 ∨ 16 ≤ channel ∨ control < 0 ∨ control > 127 ∨ value < 0 ∨ value > 127) →
      synth_control_change s env channel control value = (-1, [])) ∧
    (∀ channel program : Int,
      (channel < 0 ∨ 16 ≤ channel ∨ program < 0 ∨ program > 127) →
      synth_program_change s env channel program = (-1, [])) ∧
    (∀ channel value : Int,
      (channel < 0 ∨ 16 ≤ channel ∨ value < 0 ∨ value > 16383) →
      synth_pitch_bend s env channel value = (-1, [])) ∧
    (∀ channel pressure : Int,
      (channel < 0 ∨ 16 ≤ channel ∨ pressure < 0 ∨ pressure > 127) →
      synth_channel_pressure s env channel pressure = (-1, [])) ∧
    (∀ channel key pressure : Int,
      (channel < 0 ∨ 16 ≤ channel ∨ key < 0 ∨ key > 127 ∨ pressure < 0 ∨ pressure > 127) →
      synth_key_pressure s env channel key pressure = (-1, [])) := by
  obtain ⟨init⟩ := s
  refine ⟨?_, ?_, ?_, ?_, ?_, ?_, ?_⟩ <;> intro a b <;>
    first
      | (intro c h
         cases init <;> simp [synth_note_on, synth_note_off, synth_control_change,
           synth_key_pressure, h])
      | (intro h
         cases init <;> simp [synth_program_change, synth_pitch_bend,
           synth_channel_pressure, h])

/-- Witness for C8 (amended): one concrete out-of-range rejection per
dispatch operation. -/
theorem dispatch_range_validation_witness :
    synth_note_on ⟨true⟩ ⟨fun _ => true⟩ 16 60 100 = (-1, []) ∧
    synth_note_off ⟨true⟩ ⟨fun _ => true⟩ (-1) 60 0 = (-1, []) ∧
    synth_control_change ⟨true⟩ ⟨fun _ => true⟩ 0 128 0 = (-1, []) ∧
    synth_program_change ⟨true⟩ ⟨fun _ => true⟩ 0 (-2) = (-1, []) ∧
    synth_pitch_bend ⟨true⟩ ⟨fun _ => true⟩ 0 16384 = (-1, []) ∧
    synth_channel_pressure ⟨true⟩ ⟨fun _ => true⟩ 0 200 = (-1, []) ∧
    synth_key_pressure ⟨true⟩ ⟨fun _ => true⟩ 0 0 (-5) = (-1, []) := by
  have h := dispatch_range_validation ⟨true⟩ ⟨fun _ => true⟩
  exact ⟨h.1 16 60 100 (by decide), h.2.1 (-1) 60 0 (by decide),
    h.2.2.1 0 128 0 (by decide), h.2.2.2.1 0 (-2) (by decide),
    h.2.2.2.2.1 0 16384 (by decide), h.2.2.2.2.2.1 0 200 (by decide),
    h.2.2.2.2.2.2 0 0 (-5) (by decide)⟩

/-- C10: a note-off with velocity 0 is treated identically to a note-off
with any other velocity in [0,127]: the dispatch operation and the router
produce the same result and the same single call into the synthesis
capability, independent of the velocity. -/
theorem note_off_velocity_uniform
    (s : SynthState) (env : SynthEnv) (channel key v1 v2 : Int)
    (hch : 0 ≤ channel) (hch2 : channel < 16) (hk : 0 ≤ key) (hk2 : key ≤ 127)
    (_h1 : 0 ≤ v1) (_h2 : v1 ≤ 127) (_h3 : 0 ≤ v2) (_h4 : v2 ≤ 127) :
    synth_note_off s env channel key v1 = synth_note_off s env channel key v2 ∧
    synth_handle_midi_event s env (SeqEvent.noteoff channel key v1) =
      synth_handle_midi_event s env (SeqEvent.noteoff channel key v2) ∧
    (s.initialized = true →
      (synth_note_off s env channel key v1).2 = [FluidCall.noteoff channel key]) := by
  refine ⟨rfl, rfl, ?_⟩
  intro hinit
  have hcond : ¬(channel < 0 ∨ 16 ≤ channel ∨ key < 0 ∨ key > 127) := by omega
  simp [synth_note_off, hinit, hcond]

/-- Witness for C10: velocities 0 and 127 give identical behavior on
channel 0, key 60. -/
theorem note_off_velocity_uniform_witness :
    synth_note_off ⟨true⟩ ⟨fun _ => true⟩ 0 60 0 =
      synth_note_off ⟨true⟩ ⟨fun _ => true⟩ 0 60 127 ∧
    (synth_note_off ⟨true⟩ ⟨fun _ => true⟩ 0 60 0).2 = [FluidCall.noteoff 0 60] := by
  have h := note_off_velocity_uniform ⟨true⟩ ⟨fun _ => true⟩ 0 60 0 127
    (by decide) (by decide) (by decide) (by decide)
    (by decide) (by decide) (by decide) (by decide)
  exact ⟨h.1, h.2.2 rfl⟩

/-- C2 failing input: the compiled-in defaults with an empty client
name, out-of-range polyphony 9999, and two enabled soundfonts with
readable paths. `config_validate` clamps the polyphony to its default
256 and counts both corrections, but the client-name fix's out-of-bounds
`strncpy` then zeroes the already-clamped polyphony, the chorus and
reverb settings and `midi_autoconnect`, and empties the first
soundfont's path — so the returned configuration holds polyphony 0, not
the documented default 256 that one-fix-per-field clamping promises. -/
theorem config_validate_overflow_failing_input :
    config_validate (fun _ => true)
      { config_init_defaults (fun _ => true) with
        client_name := ""
        polyphony := 9999
        soundfonts :=
          [{ path := "/a.sf2", enabled := true, bank_offset := 0, gain_offset := 0 },
           { path := "/b.sf2", enabled := true, bank_offset := 0, gain_offset := 0 }] } =
      some (2,
        { config_init_defaults (fun _ => true) with
          client_name := CONFIG_DEFAULT_CLIENT_NAME
          midi_autoconnect := false
          polyphony := 0
          chorus_enabled := false
          chorus_level := 0
          reverb_enabled := false
          reverb_level := 0
          soundfonts :=
            [{ path := "", enabled := true, bank_offset := 0, gain_offset := 0 },
             { path := "/b.sf2", enabled := true, bank_offset := 0, gain_offset := 0 }] }) ∧
    (0 : Int) ≠ CONFIG_DEFAULT_POLYPHONY := by
  refine ⟨by decide, by decide⟩

/-- C3 failing input: the compiled-in defaults — whose soundfont list is
a single enabled entry with a non-empty path, readable since `readable`
answers true for every path — with the client name set empty. The
client-name fix's overflow empties that single soundfont's path before
the soundfont loop runs, so `config_validate` reports the fatal
no-soundfont result (`none`, the C `-1`) even though the input held one
enabled, accessible soundfont: a second fatal condition beyond the
zero-soundfonts-remain one. -/
theorem config_validate_fatal_overflow_failing_input :
    config_validate (fun _ => true)
      { config_init_defaults (fun _ => true) with client_name := "" } = none ∧
    ({ config_init_defaults (fun _ => true) with client_name := "" }
        : MidisynthdConfig).soundfonts.length = 1 ∧
    (({ config_init_defaults (fun _ => true) with client_name := "" }
        : MidisynthdConfig).soundfonts.all
      (fun sf => sf.enabled && decide (0 < sf.path.length))) = true := by
  refine ⟨by decide, by decide, by decide⟩

/-- C9 counterexample: a missing configuration file (`ENOENT`) makes
`config_load_file` return the very same `-1` error result as any other
open failure — the return value does not single out non-ENOENT failures;
the two cases differ only in logging. -/
theorem config_load_file_enoent_errors :
    config_load_file (fun _ => (0, 0)) (fun _ => zero_name_overflow)
        (config_init_defaults (fun _ => false))
        FileResult.enoent =
      (config_init_defaults (fun _ => false), -1) ∧
    config_load_file (fun _ => (0, 0)) (fun _ => zero_name_overflow)
        (config_init_defaults (fun _ => false))
        FileResult.enoent =
      config_load_file (fun _ => (0, 0)) (fun _ => zero_name_overflow)
        (config_init_defaults (fun _ => false))
        FileResult.openFail ∧
    ¬ (config_load_file (fun _ => (0, 0)) (fun _ => zero_name_overflow)
        (config_init_defaults (fun _ => false))
        FileResult.enoent).2 = 0 := by
  exact ⟨rfl, rfl, by decide⟩

/-- C9 (amended): `config_load_file` returns `-1` whenever the file
cannot be opened — including when it does not exist (ENOENT differs only
in that no warning is logged) — and returns `0` whenever the file opens;
once a file opens, no line content can make the load fail, and an
unparsable or out-of-range numeric value falls back to the compiled-in
default supplied for that key. -/
theorem config_load_file_error_behavior
    (strtof : Strtof) (name_overflow : NameOverflow) (config : MidisynthdConfig) :
    config_load_file strtof name_overflow config FileResult.enoent = (config, -1) ∧
    config_load_file strtof name_overflow config FileResult.openFail = (config, -1) ∧
    (∀ lines,
      (config_load_file strtof name_overflow config (FileResult.opened lines)).2 = 0) ∧
    (∀ s min_val max_val default_val,
      ((strtol10 s).2 ≠ s.length ∨ (strtol10 s).1 < min_val ∨ (strtol10 s).1 > max_val) →
      parse_int s min_val max_val default_val = default_val) ∧
    (∀ s min_val max_val default_val,
      ((strtof s).2 ≠ s.length ∨ (strtof s).1 < min_val ∨ (strtof s).1 > max_val) →
      parse_float strtof s min_val max_val default_val = default_val) := by
  refine ⟨rfl, rfl, fun lines => rfl, ?_, ?_⟩
  · intro s mn mx d h
    simp only [parse_int]
    rw [if_pos h]
  · intro s mn mx d h
    simp only [parse_float]
    rw [if_pos h]

/-- Witness for C9 (amended): an unparsable buffer size falls back to the
default, and a file containing only that garbage line still loads. -/
theorem config_load_file_error_behavior_witness :
    parse_int "notanumber" 64 8192 512 = 512 ∧
    (config_load_file (fun _ => (0, 0)) (fun _ => zero_name_overflow)
        (config_init_defaults (fun _ => false))
        (FileResult.opened ["buffer_size = notanumber"])).2 = 0 := by
  have h := config_load_file_error_behavior (fun _ => (0, 0)) (fun _ => zero_name_overflow)
    (config_init_defaults (fun _ => false))
  exact ⟨h.2.2.2.1 "notanumber" 64 8192 512 (by decide),
    h.2.2.1 ["buffer_size = notanumber"]⟩

/-- C4: a reload that fails to load or validate the scratch configuration
leaves the live configuration entirely unchanged; a successful reload
replaces exactly the six hot-reloadable fields (log level, gain, chorus
enabled/level, reverb enabled/level) from the validated scratch copy; in
every case all other fields (backend selections, sample rate, buffer
settings, client name, autoconnect, polyphony, soundfont list, realtime
priority, user, group) keep their live values. -/
theorem reload_configuration_frame
    (strtof : Strtof) (name_overflow : NameOverflow) (env : ConfigEnv)
    (live : MidisynthdConfig) :
    ((reload_configuration strtof name_overflow env live).2.audio_driver = live.audio_driver ∧
     (reload_configuration strtof name_overflow env live).2.midi_driver = live.midi_driver ∧
     (reload_configuration strtof name_overflow env live).2.sample_rate = live.sample_rate ∧
     (reload_configuration strtof name_overflow env live).2.buffer_size = live.buffer_size ∧
     (reload_configuration strtof name_overflow env live).2.audio_periods = live.audio_periods ∧
     (reload_configuration strtof name_overflow env live).2.client_name = live.client_name ∧
     (reload_configuration strtof name_overflow env live).2.midi_autoconnect = live.midi_autoconnect ∧
     (reload_configuration strtof name_overflow env live).2.polyphony = live.polyphony ∧
     (reload_configuration strtof name_overflow env live).2.soundfonts = live.soundfonts ∧
     (reload_configuration strtof name_overflow env live).2.realtime_priority = live.realtime_priority ∧
     (reload_configuration strtof name_overflow env live).2.user = live.user ∧
     (reload_configuration strtof name_overflow env live).2.group = live.group) ∧
    (((config_load strtof name_overflow env (config_init_defaults env.readable)).2 < 0 ∨
      config_validate env.readable
        (config_load strtof name_overflow env (config_init_defaults env.readable)).1 = none) →
      reload_configuration strtof name_overflow env live = (-1, live)) ∧
    (∀ fixCount newCfg,
      ¬ (config_load strtof name_overflow env (config_init_defaults env.readable)).2 < 0 →
      config_validate env.readable
        (config_load strtof name_overflow env (config_init_defaults env.readable)).1 =
          some (fixCount, newCfg) →
      reload_configuration strtof name_overflow env live =
        (0, { live with
              log_level := newCfg.log_level
              gain := newCfg.gain
              chorus_enabled := newCfg.chorus_enabled
              chorus_level := newCfg.chorus_level
              reverb_enabled := newCfg.reverb_enabled
              reverb_level := newCfg.reverb_level })) := by
  refine ⟨?_, ?_, ?_⟩
  · simp only [reload_configuration]
    split
    · exact ⟨rfl, rfl, rfl, rfl, rfl, rfl, rfl, rfl, rfl, rfl, rfl, rfl⟩
    · split <;> exact ⟨rfl, rfl, rfl, rfl, rfl, rfl, rfl, rfl, rfl, rfl, rfl, rfl⟩
  · intro h
    simp only [reload_configuration]
    split
    · rfl
    · rcases h with h | h
      · omega
      · rw [h]
  · intro fixCount newCfg h1 h2
    simp only [reload_configuration]
    rw [if_neg h1, h2]

/-- Witness for C4: with no config file to load the reload fails and
returns the live configuration untouched; with an empty system file the
reload succeeds and (the scratch copy being all defaults) returns the
live configuration with the hot fields set to their defaults. -/
theorem reload_configuration_frame_witness :
    reload_configuration (fun _ => (0, 0)) (fun _ => zero_name_overflow)
        ⟨FileResult.enoent, none, FileResult.enoent, fun _ => true⟩
        (config_init_defaults (fun _ => true)) =
      (-1, config_init_defaults (fun _ => true)) ∧
    reload_configuration (fun _ => (0, 0)) (fun _ => zero_name_overflow)
        ⟨FileResult.opened [], none, FileResult.enoent, fun _ => true⟩
        (config_init_defaults (fun _ => true)) =
      (0, config_init_defaults (fun _ => true)) := by
  constructor
  · exact (reload_configuration_frame (fun _ => (0, 0)) (fun _ => zero_name_overflow)
      ⟨FileResult.enoent, none, FileResult.enoent, fun _ => true⟩
      (config_init_defaults (fun _ => true))).2.1 (Or.inl (by decide))
  · have h := (reload_configuration_frame (fun _ => (0, 0)) (fun _ => zero_name_overflow)
      ⟨FileResult.opened [], none, FileResult.enoent, fun _ => true⟩
      (config_init_defaults (fun _ => true))).2.2 0
      (config_init_defaults (fun _ => true)) (by decide) (by decide)
    exact h

/-- C6: when activation of the detected audio backend fails, a non-ALSA
backend is reconfigured for ALSA and activation is retried exactly once
(the attempt list is exactly the failed backend followed by one ALSA
attempt, whose outcome decides the result); a failure while already on
ALSA, or a failed ALSA retry, makes `audio_init` fatal (`none`) and
`initialize_modules` then refuses to start the daemon. -/
theorem audio_init_fallback
    (env : AudioEnv) (config : MidisynthdConfig)
    (hconf : env.configure_ok (detect_audio_driver config.audio_driver env.snapshot) = true)
    (hact : env.activate_ok (detect_audio_driver config.audio_driver env.snapshot) = false) :
    (detect_audio_driver config.audio_driver env.snapshot ≠ AudioDriver.alsa →
      env.configure_ok AudioDriver.alsa = true →
      audio_init env config =
        ((if env.activate_ok AudioDriver.alsa = true then some AudioDriver.alsa else none),
         [detect_audio_driver config.audio_driver env.snapshot, AudioDriver.alsa])) ∧
    (detect_audio_driver config.audio_driver env.snapshot = AudioDriver.alsa →
      audio_init env config = (none, [AudioDriver.alsa]) ∧
      initialize_modules env config true true = -1) ∧
    (detect_audio_driver config.audio_driver env.snapshot ≠ AudioDriver.alsa →
      env.configure_ok AudioDriver.alsa = true →
      env.activate_ok AudioDriver.alsa = false →
      initialize_modules env config true true = -1) := by
  refine ⟨?_, ?_, ?_⟩
  · intro hd hca
    simp only [audio_init, hconf, hact]
    simp [hd, hca]
    split <;> rfl
  · intro hd
    have ha : audio_init env config = (none, [AudioDriver.alsa]) := by
      simp only [audio_init, hconf, hact]
      simp [hd]
    exact ⟨ha, by simp [initialize_modules, ha]⟩
  · intro hd hca haa
    have ha : audio_init env config = (none,
        [detect_audio_driver config.audio_driver env.snapshot, AudioDriver.alsa]) := by
      simp only [audio_init, hconf, hact]
      simp [hd, hca, haa]
    simp [initialize_modules, ha]

/-- Witness for C6: an explicit JACK request whose activation fails falls
back to ALSA, which activates, so `audio_init` comes up on ALSA after
exactly one retry. -/
theorem audio_init_fallback_witness :
    audio_init
        ⟨⟨false, false, false⟩, fun _ => true, fun d => decide (d = AudioDriver.alsa)⟩
        { config_init_defaults (fun _ => false) with audio_driver := AudioDriver.jack } =
      (some AudioDriver.alsa, [AudioDriver.jack, AudioDriver.alsa]) := by
  rw [(audio_init_fallback
    ⟨⟨false, false, false⟩, fun _ => true, fun d => decide (d = AudioDriver.alsa)⟩
    { config_init_defaults (fun _ => false) with audio_driver := AudioDriver.jack }
    (by decide) (by decide)).1 (by decide) (by decide)]
  decide

end Midisynthd
